import Mathlib

/-!
Verification development for the Graveyard Dashboard backend
(`backend/daily_ping.py` and `backend/server.py`).

The Python code is shallowly embedded: pure helpers become Lean functions,
the process-wide random generator becomes an explicitly threaded abstract
generator state, thread-pool probe execution becomes a fold in the `Except`
monad (a task's uncaught exception aborts the collection, exactly as
`future.result()` re-raises inside the `as_completed` loop), and decoded
JSON values become an inductive `Json` type.
-/

namespace Graveyard

/-- Model of decoded JSON values (the result of `json.loads`).  JSON numbers
are modelled as integers; floating-point payloads are outside the model. -/
inductive Json where
  | null
  | bool (b : Bool)
  | num (n : Int)
  | str (s : String)
  | arr (xs : List Json)
  | obj (fields : List (String × Json))
deriving Repr

/-- Sliding-window substring scan over character lists: does `pat` occur as a
contiguous run inside the second list? -/
def charsContain (pat : List Char) : List Char → Bool
  | [] => pat.isEmpty
  | c :: rest => pat.isPrefixOf (c :: rest) || charsContain pat rest

/-- Python substring test `pat in s`. -/
def strContains (s pat : String) : Bool :=
  charsContain pat.toList s.toList

/-- Python `str.lower()`.  Only ASCII letters occur in the strings this
program compares, so ASCII lowering models `lower()` faithfully here. -/
def lowerStr (s : String) : String :=
  String.mk (s.toList.map Char.toLower)

/-- Python `str.strip()` (ASCII whitespace, which is all that occurs here). -/
def stripStr (s : String) : String :=
  String.mk (((s.toList.dropWhile Char.isWhitespace).reverse.dropWhile Char.isWhitespace).reverse)

mutual

/-- Python `repr` of a decoded JSON value, as used by `str()` on containers.
Quote escaping inside strings is not modelled. -/
def pyRepr : Json → String
  | .null => "None"
  | .bool true => "True"
  | .bool false => "False"
  | .num n => toString n
  | .str s => "'" ++ s ++ "'"
  | .arr xs => "[" ++ String.intercalate ", " (pyReprList xs) ++ "]"
  | .obj fs => "\x7b" ++ String.intercalate ", " (pyReprFields fs) ++ "\x7d"

/-- `repr` of each element of a decoded JSON array. -/
def pyReprList : List Json → List String
  | [] => []
  | j :: js => pyRepr j :: pyReprList js

/-- `repr` of each key/value pair of a decoded JSON object. -/
def pyReprFields : List (String × Json) → List String
  | [] => []
  | (k, v) :: fs => ("'" ++ k ++ "': " ++ pyRepr v) :: pyReprFields fs

end

/-- Python `str(value)`: identical to `repr` except on strings. -/
def pyStr : Json → String
  | .str s => s
  | v => pyRepr v

/-- `daily_ping.normalize_model`: `None` stays `None`; a string is stripped,
with an empty strip collapsing to `None` (`value.strip() or None`); any other
value is converted with `str(value)`. -/
def normalize_model (value : Json) : Option String :=
  match value with
  | .null => none
  | .str s => if stripStr s = "" then none else some (stripStr s)
  | v => some (pyStr v)

/-- `daily_ping.WEIGHTED_HTTP_STATUSES`. -/
def WEIGHTED_HTTP_STATUSES : List Nat :=
  [200, 200, 200, 200, 200, 429, 408, 500, 401, 404, 400]

/-- `daily_ping.STATUS_MAP`: outcome code to (status, severity).  The Python
dict raises `KeyError` on other codes; such lookups never occur (only the
seven codes below are ever produced), so the default branch is junk. -/
def statusMap (code : Nat) : String × String :=
  if code = 200 then ("ALIVE", "OK")
  else if code = 429 then ("RATE_LIMIT", "WARN")
  else if code = 408 then ("TIMEOUT", "ERROR")
  else if code = 500 then ("PROVIDER_ERROR", "ERROR")
  else if code = 401 then ("UNAUTHORIZED", "CRITICAL")
  else if code = 404 then ("MODEL_NOT_FOUND", "CRITICAL")
  else if code = 400 then ("BAD_REQUEST", "ERROR")
  else ("", "")

/-- `daily_ping.TIER_ORDER`. -/
def TIER_ORDER : List String := ["top", "high", "mid", "light"]

/-- `daily_ping._classify_tier`: bucket a model name into an ability tier by
case-insensitive substring matching, first match wins. -/
def _classify_tier (model_name : String) : String :=
  let low := lowerStr model_name
  if strContains low "opus" then "top"
  else if strContains low "gpt-5" || strContains low "pro-high" || strContains low "pro" then "high"
  else if strContains low "sonnet" then "mid"
  else "light"

/-- The inner `classify_error` of `daily_ping.probe_model`: map an error
message (or its absence) to an outcome code by ordered case-insensitive
substring matching.  `if not message` is Python truthiness, so the empty
string also yields 500. -/
def classify_error (message : Option String) : Nat :=
  match message with
  | none => 500
  | some s =>
    if s = "" then 500
    else
      let low := lowerStr s
      if strContains low "model not found" then 404
      else if strContains low "unauthorized" || strContains low "401" || strContains low "403" then 401
      else if strContains low "rate limit" || strContains low "429" then 429
      else if strContains low "timeout" || strContains low "408" then 408
      else if strContains low "500" || strContains low "502" || strContains low "503"
        || strContains low "504" || strContains low "server error" then 500
      else if strContains low "400" || strContains low "bad request" then 400
      else 500

/-! ## Data model -/

/-- One roster entry as built by `load_roster`: `{"name": ..., "type": ...,
"model": ...}`.  The orchestrators read all three fields defensively with
`.get`, so each is optional here. -/
structure RosterEntry where
  name : Option String
  type : Option String
  model : Option String
deriving Repr, DecidableEq

/-- The outcome fields shared by `probe_model` results and status records. -/
structure ProbeOutcome where
  http_status : Nat
  status : String
  severity : String
  error_type : Option String
  error_message : Option String
  latency_ms : Nat
deriving Repr, DecidableEq

/-- One item of `graveyard_status.json`: identification fields plus the
embedded probe outcome. -/
structure StatusRecord where
  id : String
  name : String
  type : String
  model : Option String
  status : String
  severity : String
  http_status : Nat
  error_type : Option String
  error_message : Option String
  latency_ms : Nat
deriving Repr, DecidableEq

/-- Projection of a record's outcome fields (status, severity, code, error
fields, latency). -/
def outcomeOf (r : StatusRecord) : ProbeOutcome :=
  ⟨r.http_status, r.status, r.severity, r.error_type, r.error_message, r.latency_ms⟩

/-- Python truthiness of an optional string: `None` and `""` are falsy.
`truthyModel om = some m` exactly when the code's `if model:` guard passes. -/
def truthyModel : Option String → Option String
  | none => none
  | some m => if m = "" then none else some m

/-- Python `item.get(key) or "unknown"`. -/
def orUnknown : Option String → String
  | none => "unknown"
  | some s => if s = "" then "unknown" else s

/-! ## Random generator model

`daily_ping` draws from Python's process-wide `random` generator.  The
generator is modelled abstractly as a deterministic state machine threaded
explicitly: `seedRng n` is the state after `random.seed(n)`, and each draw is
a pure function of the current state that also returns the advanced state.
The concrete step function is a linear congruential generator; the claims
below depend only on determinism, not on the distribution. -/

structure Rng where
  state : Nat
deriving Repr, DecidableEq

/-- `random.seed(n)`: the generator state becomes a pure function of `n`. -/
def seedRng (n : Nat) : Rng := ⟨n⟩

/-- One raw draw from the generator. -/
def rngNext (g : Rng) : Nat × Rng :=
  let s := (g.state * 1103515245 + 12345) % 2 ^ 31
  (s, ⟨s⟩)

/-- `random.choice(xs)`. -/
def randChoice (g : Rng) (xs : List Nat) : Nat × Rng :=
  let p := rngNext g
  (xs.getD (p.1 % xs.length) 0, p.2)

/-- `random.randint(lo, hi)` (inclusive bounds). -/
def randInt (g : Rng) (lo hi : Nat) : Nat × Rng :=
  let p := rngNext g
  (lo + p.1 % (hi - lo + 1), p.2)

/-! ## Single-item probe (`ping_single`) and simulated orchestration -/

/-- `daily_ping.ping_single`: probe one agent/category with the (unseeded)
ambient generator and return its status record together with the advanced
generator state. -/
def ping_single (name item_type model : String) (g : Rng) : StatusRecord × Rng :=
  let item_id := item_type ++ ":" ++ name
  let p1 := randChoice g WEIGHTED_HTTP_STATUSES
  let http_status := p1.1
  let p2 := randInt p1.2 50 3000
  let latency_ms := p2.1
  let ss := statusMap http_status
  ({ id := item_id, name := name, type := item_type, model := some model,
     status := ss.1, severity := ss.2, http_status := http_status,
     error_type := if http_status = 200 then none else some ss.1,
     error_message := if http_status = 200 then none
       else some ("Simulated " ++ lowerStr ss.1),
     latency_ms := latency_ms }, p2.2)

/-- The `INVALID_CONFIG` record built for entries without a usable model
(shared verbatim by `simulate_ping` and `real_ping`). -/
def invalidRecord (item_id name item_type : String) (model : Option String) : StatusRecord :=
  { id := item_id, name := name, type := item_type, model := model,
    status := "INVALID_CONFIG", severity := "ERROR", http_status := 0,
    error_type := some "INVALID_CONFIG", error_message := some "Missing model",
    latency_ms := 0 }

/-- Loop body of `daily_ping.simulate_ping`, threading the generator state. -/
def simulate_ping_go : List RosterEntry → Rng → List StatusRecord × Rng
  | [], g => ([], g)
  | it :: rest, g =>
    let name := orUnknown it.name
    let item_type := orUnknown it.type
    let item_id := item_type ++ ":" ++ name
    match truthyModel it.model with
    | none =>
      let tail := simulate_ping_go rest g
      (invalidRecord item_id name item_type it.model :: tail.1, tail.2)
    | some _ =>
      let p1 := randChoice g WEIGHTED_HTTP_STATUSES
      let http_status := p1.1
      let p2 := randInt p1.2 50 3000
      let latency_ms := p2.1
      let ss := statusMap http_status
      let r : StatusRecord :=
        { id := item_id, name := name, type := item_type, model := it.model,
          status := ss.1, severity := ss.2, http_status := http_status,
          error_type := if http_status = 200 then none else some ss.1,
          error_message := if http_status = 200 then none
            else some ("Simulated " ++ lowerStr ss.1),
          latency_ms := latency_ms }
      let tail := simulate_ping_go rest p2.2
      (r :: tail.1, tail.2)

/-- `daily_ping.simulate_ping`: reseeds the process-wide generator with 42
before iterating, so the ambient state `g` is discarded. -/
def simulate_ping (items : List RosterEntry) (_g : Rng) : List StatusRecord × Rng :=
  simulate_ping_go items (seedRng 42)

/-! ## Real orchestration (`real_ping`)

The probe of one model is abstracted as `probe : String → Except Unit
ProbeOutcome`; `Except.error` models `probe_model` raising an unexpected
exception (e.g. `subprocess.run` failing with `OSError`), which
`future.result()` re-raises inside the `as_completed` loop. -/

/-- The `models` set of `real_ping`, modelled as the first-occurrence
deduplication of the truthy model identifiers. -/
def distinctModelsAux (acc : List String) : List RosterEntry → List String
  | [] => acc
  | it :: rest =>
    match truthyModel it.model with
    | some m =>
      if m ∈ acc then distinctModelsAux acc rest
      else distinctModelsAux (acc ++ [m]) rest
    | none => distinctModelsAux acc rest

/-- Distinct truthy models of the roster, in first-occurrence order. -/
def distinctModels (items : List RosterEntry) : List String :=
  distinctModelsAux [] items

/-- Collect every submitted probe's result into the `model_results` dict
(modelled as a function, updated per completed task).  An exception from any
task aborts the collection, as `future.result()` is not wrapped in
`try/except`. -/
def gatherProbesAux (acc : String → Option ProbeOutcome) :
    List String → (String → Except Unit ProbeOutcome) →
    Except Unit (String → Option ProbeOutcome)
  | [], _ => .ok acc
  | m :: rest, probe =>
    match probe m with
    | .ok o => gatherProbesAux (fun k => if k = m then some o else acc k) rest probe
    | .error e => .error e

/-- The substituted outcome of `real_ping` for a model missing from
`model_results` (`"Probe failed"`, taxonomy 500). -/
def probeFailedOutcome : ProbeOutcome :=
  { http_status := 500, status := (statusMap 500).1, severity := (statusMap 500).2,
    error_type := some (statusMap 500).1, error_message := some "Probe failed",
    latency_ms := 0 }

/-- Projection of one roster entry through the collected `model_results`
(the second loop of `real_ping`). -/
def record_for (tbl : String → Option ProbeOutcome) (it : RosterEntry) : StatusRecord :=
  let name := orUnknown it.name
  let item_type := orUnknown it.type
  let item_id := item_type ++ ":" ++ name
  match truthyModel it.model with
  | none => invalidRecord item_id name item_type it.model
  | some m =>
    let pr := (tbl m).getD probeFailedOutcome
    { id := item_id, name := name, type := item_type, model := it.model,
      status := pr.status, severity := pr.severity, http_status := pr.http_status,
      error_type := pr.error_type, error_message := pr.error_message,
      latency_ms := pr.latency_ms }

/-- `daily_ping.real_ping`: dedupe models, probe each once through the worker
pool (any task exception propagates and aborts the batch), then project the
results back onto every entry in input order.  The worker-pool bound
(`max_workers`) does not affect the functional result and is not modelled. -/
def real_ping (items : List RosterEntry)
    (probe : String → Except Unit ProbeOutcome) : Except Unit (List StatusRecord) :=
  match gatherProbesAux (fun _ => none) (distinctModels items) probe with
  | .error e => .error e
  | .ok tbl => .ok (items.map (record_for tbl))

/-! ## Stdout scan of `probe_model`

`probe_model` runs the external `opencode` CLI and scans its stdout line by
line.  Each non-blank line is modelled after `json.loads`: `none` when the
line failed to parse (`json.JSONDecodeError`, skipped by `continue`), and
`some fields` for a decoded JSON object.  Lines decoding to non-objects are
outside the model (the source's `cast` assumes objects and would fault at
attribute lookup).  Blank lines are skipped before parsing and carry no
information, so they are also represented by `none`. -/

/-- A parsed stdout line. -/
abbrev StdoutLine : Type := Option (List (String × Json))

/-- Python `dict.get(key)` on a decoded JSON object (decoded objects have
unique keys, so first match suffices). -/
def dictGet (fields : List (String × Json)) (key : String) : Option Json :=
  (fields.find? (fun kv => kv.1 == key)).map (fun kv => kv.2)

/-- Result of the stdout scan loop. -/
inductive ScanOutcome where
  | success
  | errorEvent (msg : Option String)
  | exhausted
deriving Repr, DecidableEq

/-- The error-message extraction of the `"error"` event branch: use
`error.data.message` when `error.data` is a dict, otherwise `error.message`;
anything that is not a string collapses to `None`. -/
def extractErrorMessage (payload : List (String × Json)) : Option String :=
  let message_value : Option Json :=
    match dictGet payload "error" with
    | some (Json.obj errorFields) =>
      match dictGet errorFields "data" with
      | some (Json.obj dataFields) => dictGet dataFields "message"
      | _ => dictGet errorFields "message"
    | _ => none
  match message_value with
  | some (Json.str s) => some s
  | _ => none

/-- The line scan of `probe_model`: a `"text"` event returns success
immediately; an `"error"` event breaks with its extracted message; every
other line is skipped. -/
def scanLines : List StdoutLine → ScanOutcome
  | [] => .exhausted
  | none :: rest => scanLines rest
  | some payload :: rest =>
    match dictGet payload "type" with
    | some (Json.str "text") => .success
    | some (Json.str "error") => .errorEvent (extractErrorMessage payload)
    | _ => scanLines rest

/-- Outcome of `subprocess.run` in `probe_model`: either a timeout
(`subprocess.TimeoutExpired`) or a completed process with parsed stdout lines
and stderr text. -/
structure CompletedProcess where
  stdout : List StdoutLine
  stderr : String

/-- `daily_ping.probe_model` after the external invocation, with the measured
latency passed in (wall-clock time is external).  A `none` run is the timeout
branch. -/
def probe_model (run : Option CompletedProcess) (latency_ms : Nat) : ProbeOutcome :=
  match run with
  | none =>
    { http_status := 408, status := (statusMap 408).1, severity := (statusMap 408).2,
      error_type := some (statusMap 408).1, error_message := some "Timeout",
      latency_ms := latency_ms }
  | some completed =>
    match scanLines completed.stdout with
    | .success =>
      { http_status := 200, status := (statusMap 200).1, severity := (statusMap 200).2,
        error_type := none, error_message := none, latency_ms := latency_ms }
    | scanned =>
      let fromScan : Option String :=
        match scanned with
        | .errorEvent m => m
        | _ => none
      let error_message : Option String :=
        if (fromScan = none ∨ fromScan = some "") ∧ completed.stderr ≠ "" then
          (if stripStr completed.stderr = "" then none else some (stripStr completed.stderr))
        else fromScan
      let http_status := classify_error error_message
      let ss := statusMap http_status
      { http_status := http_status, status := ss.1, severity := ss.2,
        error_type := some ss.1, error_message := error_message,
        latency_ms := latency_ms }

/-! ## Tier table and replacement suggestion -/

/-- The `{tier: [model, ...]}` dict built by `get_model_tiers`. -/
structure Tiers where
  top : List String
  high : List String
  mid : List String
  light : List String
deriving Repr, DecidableEq

/-- Bucket lookup `tiers[tier]` (only the four `TIER_ORDER` keys occur). -/
def Tiers.get (t : Tiers) (tier : String) : List String :=
  if tier = "top" then t.top
  else if tier = "high" then t.high
  else if tier = "mid" then t.mid
  else t.light

/-- `tiers[tier].append(m)`. -/
def Tiers.push (t : Tiers) (tier : String) (m : String) : Tiers :=
  if tier = "top" then { t with top := t.top ++ [m] }
  else if tier = "high" then { t with high := t.high ++ [m] }
  else if tier = "mid" then { t with mid := t.mid ++ [m] }
  else { t with light := t.light ++ [m] }

/-- `entry_map.get("model") if entry_map else None`, then `normalize_model`:
the raw `model` value of one roster entry (`none` when the entry is not a
mapping or has no `model` key). -/
def rosterModel (raw : Option Json) : Option String :=
  match raw with
  | none => none
  | some j => normalize_model j

/-- Loop of `get_model_tiers` over the roster entries (agents then
categories, in declaration order), with the `seen` set as a list. -/
def get_model_tiers_aux (tiers : Tiers) (seen : List String) :
    List (Option Json) → Tiers
  | [] => tiers
  | raw :: rest =>
    match truthyModel (rosterModel raw) with
    | some m =>
      if m ∈ seen then get_model_tiers_aux tiers seen rest
      else get_model_tiers_aux (tiers.push (_classify_tier m) m) (seen ++ [m]) rest
    | none => get_model_tiers_aux tiers seen rest

/-- `daily_ping.get_model_tiers`, parameterised by the roster entries' raw
`model` values instead of the roster file read (file access is external). -/
def get_model_tiers (entries : List (Option Json)) : Tiers :=
  get_model_tiers_aux ⟨[], [], [], []⟩ [] entries

/-- `TIER_ORDER.index(t)` (Python raises on a missing element; the argument
is always one of the four tier names). -/
def listIndex (xs : List String) (x : String) : Nat :=
  match xs with
  | [] => 0
  | y :: ys => if y = x then 0 else listIndex ys x + 1

/-- The alive-model set of `suggest_replacement`: models of records with
severity `"OK"` and a truthy `model` field. -/
def aliveB (items : List StatusRecord) (m : String) : Bool :=
  items.any (fun it => it.severity == "OK" && truthyModel it.model == some m)

/-- The two nested `for` loops of `suggest_replacement`: for each tier index
scan that tier's bucket in order and return the first alive candidate that is
not the failed model. -/
def searchTiers (tiers : Tiers) (alive : String → Bool) (failed : String) :
    List Nat → Option String
  | [] => none
  | idx :: rest =>
    match (tiers.get (TIER_ORDER.getD idx "light")).find?
        (fun m => alive m && m != failed) with
    | some m => some m
    | none => searchTiers tiers alive failed rest

/-- `daily_ping.suggest_replacement`, with the roster file read replaced by
the roster entries' raw model values. -/
def suggest_replacement (rosterEntries : List (Option Json)) (failed : String)
    (items : List StatusRecord) : Option String :=
  let tiers := get_model_tiers rosterEntries
  let failed_tier := _classify_tier failed
  let tier_idx := listIndex TIER_ORDER failed_tier
  searchTiers tiers (aliveB items) failed [tier_idx, max 0 (tier_idx - 1)]

/-! ## Server: replace-model handler -/

/-- The status snapshot (`graveyard_status.json`). -/
structure StatusSnapshot where
  generated_at : String
  schema_version : Nat
  items : List StatusRecord
deriving Repr, DecidableEq

/-- Python `agent_id.split(":", 1)` when it yields two parts: the text before
the first `':'` and everything after it. -/
def splitOnceAux : List Char → Option (List Char × List Char)
  | [] => none
  | c :: cs =>
    if c = ':' then some ([], cs)
    else
      match splitOnceAux cs with
      | some lr => some (c :: lr.1, lr.2)
      | none => none

/-- The `agent_id` validation of `api_replace_model`: two `':'`-separated
parts whose first is `"agent"` or `"category"`. -/
def parseAgentId (agentId : String) : Option (String × String) :=
  match splitOnceAux agentId.toList with
  | none => none
  | some lr =>
    let item_type := String.mk lr.1
    if item_type = "agent" ∨ item_type = "category"
    then some (item_type, String.mk lr.2) else none

/-- The status-patch loop of `api_replace_model`: replace the first item
whose `id` equals `agent_id`, leave everything else in place. -/
def replaceFirstById (agentId : String) (new_status : StatusRecord) :
    List StatusRecord → List StatusRecord
  | [] => []
  | it :: rest =>
    if it.id = agentId then new_status :: rest
    else it :: replaceFirstById agentId new_status rest

/-- `server.api_replace_model`, restricted to its probing and snapshot-update
effect (config-file rewriting and HTTP (de)serialisation are external):
validate the request, re-probe the single new model with `ping_single`, patch
the first matching item and stamp `generated_at`.  `none` models the 400
error responses. -/
def api_replace_model (snapshot : StatusSnapshot) (now : String)
    (agentId new_model : String) (g : Rng) : Option (StatusSnapshot × Rng) :=
  if agentId = "" ∨ new_model = "" then none
  else
    match parseAgentId agentId with
    | none => none
    | some kn =>
      let pr := ping_single kn.2 kn.1 new_model g
      some ({ generated_at := now,
              schema_version := snapshot.schema_version,
              items := replaceFirstById agentId pr.1 snapshot.items }, pr.2)

/-- A stdout line the scan loop passes over without acting: blank or
unparseable (`none`), or a decoded object whose `type` is neither the string
`"text"` nor the string `"error"`. -/
def lineSkipped : StdoutLine → Bool
  | none => true
  | some payload =>
    match dictGet payload "type" with
    | some (Json.str "text") => false
    | some (Json.str "error") => false
    | _ => true

/-- The fixed field values of an `INVALID_CONFIG` record. -/
abbrev invalidFields (r : StatusRecord) : Prop :=
  r.status = "INVALID_CONFIG" ∧ r.severity = "ERROR" ∧ r.http_status = 0
  ∧ r.error_type = some "INVALID_CONFIG" ∧ r.error_message = some "Missing model"
  ∧ r.latency_ms = 0

/-! ## Theorems -/

/-- C1.  Evidence for the divergence: `real_ping` collects each task with
`future.result()` and no `try/except`, so one probe task raising an internal
error (model `"m3"` of five) aborts the whole batch instead of substituting
the 500/"Probe failed" outcome; no records are produced at all. -/
theorem real_ping_aborts_when_one_probe_raises :
    real_ping
      [⟨some "a1", some "agent", some "m1"⟩, ⟨some "a2", some "agent", some "m2"⟩,
       ⟨some "a3", some "agent", some "m3"⟩, ⟨some "a4", some "agent", some "m4"⟩,
       ⟨some "a5", some "agent", some "m5"⟩]
      (fun m => if m = "m3" then Except.error ()
        else Except.ok ⟨200, "ALIVE", "OK", none, none, 7⟩)
      = Except.error () := rfl

/-- C4.  `classify_error` maps a message (or its absence) to an outcome code
by case-insensitive ordered substring matching, first match wins:
"model not found" → 404; "unauthorized"/"401"/"403" → 401;
"rate limit"/"429" → 429; "timeout"/"408" → 408;
"500"/"502"/"503"/"504"/"server error" → 500; "400"/"bad request" → 400;
otherwise — including an empty or absent message — 500. -/
theorem classify_error_ordered_matching (m : String) :
    classify_error none = 500
    ∧ classify_error (some "") = 500
    ∧ (strContains (lowerStr m) "model not found" = true →
        classify_error (some m) = 404)
    ∧ (strContains (lowerStr m) "model not found" = false →
        (strContains (lowerStr m) "unauthorized" || strContains (lowerStr m) "401"
          || strContains (lowerStr m) "403") = true →
        classify_error (some m) = 401)
    ∧ (strContains (lowerStr m) "model not found" = false →
        (strContains (lowerStr m) "unauthorized" || strContains (lowerStr m) "401"
          || strContains (lowerStr m) "403") = false →
        (strContains (lowerStr m) "rate limit" || strContains (lowerStr m) "429") = true →
        classify_error (some m) = 429)
    ∧ (strContains (lowerStr m) "model not found" = false →
        (strContains (lowerStr m) "unauthorized" || strContains (lowerStr m) "401"
          || strContains (lowerStr m) "403") = false →
        (strContains (lowerStr m) "rate limit" || strContains (lowerStr m) "429") = false →
        (strContains (lowerStr m) "timeout" || strContains (lowerStr m) "408") = true →
        classify_error (some m) = 408)
    ∧ (strContains (lowerStr m) "model not found" = false →
        (strContains (lowerStr m) "unauthorized" || strContains (lowerStr m) "401"
          || strContains (lowerStr m) "403") = false →
        (strContains (lowerStr m) "rate limit" || strContains (lowerStr m) "429") = false →
        (strContains (lowerStr m) "timeout" || strContains (lowerStr m) "408") = false →
        (strContains (lowerStr m) "500" || strContains (lowerStr m) "502"
          || strContains (lowerStr m) "503" || strContains (lowerStr m) "504"
          || strContains (lowerStr m) "server error") = true →
        classify_error (some m) = 500)
    ∧ (strContains (lowerStr m) "model not found" = false →
        (strContains (lowerStr m) "unauthorized" || strContains (lowerStr m) "401"
          || strContains (lowerStr m) "403") = false →
        (strContains (lowerStr m) "rate limit" || strContains (lowerStr m) "429") = false →
        (strContains (lowerStr m) "timeout" || strContains (lowerStr m) "408") = false →
        (strContains (lowerStr m) "500" || strContains (lowerStr m) "502"
          || strContains (lowerStr m) "503" || strContains (lowerStr m) "504"
          || strContains (lowerStr m) "server error") = false →
        (strContains (lowerStr m) "400" || strContains (lowerStr m) "bad request") = true →
        classify_error (some m) = 400)
    ∧ (strContains (lowerStr m) "model not found" = false →
        (strContains (lowerStr m) "unauthorized" || strContains (lowerStr m) "401"
          || strContains (lowerStr m) "403") = false →
        (strContains (lowerStr m) "rate limit" || strContains (lowerStr m) "429") = false →
        (strContains (lowerStr m) "timeout" || strContains (lowerStr m) "408") = false →
        (strContains (lowerStr m) "500" || strContains (lowerStr m) "502"
          || strContains (lowerStr m) "503" || strContains (lowerStr m) "504"
          || strContains (lowerStr m) "server error") = false →
        (strContains (lowerStr m) "400" || strContains (lowerStr m) "bad request") = false →
        classify_error (some m) = 500) := by
  have hempty : ∀ pat, pat ≠ "" → strContains "" pat = false := by
    intro pat hpat
    simp only [strContains, charsContain, List.isEmpty_iff]
    simpa [String.toList] using fun h => hpat (by cases pat; simp_all)
  refine ⟨rfl, by decide, ?_, ?_, ?_, ?_, ?_, ?_, ?_⟩ <;>
    rcases eq_or_ne m "" with rfl | hne <;>
    simp_all [classify_error, lowerStr]

/-- Witness for C4: concrete messages hit the 404, 401 and fall-through
branches as the theorem states. -/
theorem classify_error_ordered_matching_witness :
    classify_error (some "Model Not Found: claude") = 404
    ∧ classify_error (some "HTTP 403 forbidden") = 401
    ∧ classify_error (some "gibberish") = 500 :=
  ⟨(classify_error_ordered_matching "Model Not Found: claude").2.2.1 (by decide),
   (classify_error_ordered_matching "HTTP 403 forbidden").2.2.2.1 (by decide) (by decide),
   (classify_error_ordered_matching "gibberish").2.2.2.2.2.2.2.2 (by decide) (by decide)
     (by decide) (by decide) (by decide) (by decide)⟩

/-- C6.  `_classify_tier` is pure and total on strings, matching
case-insensitive substrings with first-match-wins precedence: "opus" → top
(even when "gpt-5" or "pro" also occur); else "gpt-5"/"pro-high"/"pro" →
high; else "sonnet" → mid; else light. -/
theorem classify_tier_precedence (s : String) :
    (strContains (lowerStr s) "opus" = true → _classify_tier s = "top")
    ∧ (strContains (lowerStr s) "opus" = false →
        (strContains (lowerStr s) "gpt-5" || strContains (lowerStr s) "pro-high"
          || strContains (lowerStr s) "pro") = true →
        _classify_tier s = "high")
    ∧ (strContains (lowerStr s) "opus" = false →
        (strContains (lowerStr s) "gpt-5" || strContains (lowerStr s) "pro-high"
          || strContains (lowerStr s) "pro") = false →
        strContains (lowerStr s) "sonnet" = true →
        _classify_tier s = "mid")
    ∧ (strContains (lowerStr s) "opus" = false →
        (strContains (lowerStr s) "gpt-5" || strContains (lowerStr s) "pro-high"
          || strContains (lowerStr s) "pro") = false →
        strContains (lowerStr s) "sonnet" = false →
        _classify_tier s = "light") := by
  refine ⟨?_, ?_, ?_, ?_⟩ <;> simp_all [_classify_tier]

/-- Witness for C6: "claude-OPUS-4" contains "opus" and is top;
"gpt-5-pro-high" contains "opus" nowhere but "gpt-5", so high;
"x-sonnet" is mid; "haiku" is light. -/
theorem classify_tier_precedence_witness :
    _classify_tier "claude-OPUS-4" = "top"
    ∧ _classify_tier "gpt-5-pro-high" = "high"
    ∧ _classify_tier "x-sonnet" = "mid"
    ∧ _classify_tier "haiku" = "light" :=
  ⟨(classify_tier_precedence "claude-OPUS-4").1 (by decide),
   (classify_tier_precedence "gpt-5-pro-high").2.1 (by decide) (by decide),
   (classify_tier_precedence "x-sonnet").2.2.1 (by decide) (by decide) (by decide),
   (classify_tier_precedence "haiku").2.2.2 (by decide) (by decide) (by decide)⟩

/-- C9, counterexample.  A non-string `model` value does NOT normalize to
empty/no-model: `normalize_model` converts the number `123` to the string
`"123"` (`return str(value)`), so the record keeps a bogus model. -/
theorem normalize_model_nonstring_counterexample :
    normalize_model (Json.num 123) = some "123"
    ∧ normalize_model (Json.num 123) ≠ none := by
  exact ⟨by decide, by decide⟩

/-- C9, amended.  An absent (`null`) model normalizes to no-model, and a
whitespace-only string also normalizes to no-model, but a non-string model
value is converted to its Python string representation rather than being
treated as no-model. -/
theorem normalize_model_amended (v : Json) :
    (v = Json.null → normalize_model v = none)
    ∧ (∀ s, v = Json.str s →
        normalize_model v = (if stripStr s = "" then none else some (stripStr s)))
    ∧ (v ≠ Json.null → (∀ s, v ≠ Json.str s) → normalize_model v = some (pyStr v)) := by
  refine ⟨fun h => by subst h; rfl, fun s h => by subst h; rfl, fun h1 h2 => ?_⟩
  cases v with
  | null => exact absurd rfl h1
  | str s => exact absurd rfl (h2 s)
  | bool b => cases b <;> rfl
  | num n => rfl
  | arr xs => rfl
  | obj fs => rfl

/-- Witness for C9's amended claim: `null` maps to `none`, a padded string is
stripped, and the number `123` becomes the string `"123"`. -/
theorem normalize_model_amended_witness :
    normalize_model Json.null = none
    ∧ normalize_model (Json.str " m1 ") = (if stripStr " m1 " = "" then none
        else some (stripStr " m1 "))
    ∧ normalize_model (Json.num 123) = some (pyStr (Json.num 123)) :=
  ⟨(normalize_model_amended Json.null).1 rfl,
   (normalize_model_amended (Json.str " m1 ")).2.1 " m1 " rfl,
   (normalize_model_amended (Json.num 123)).2.2 (fun h => Json.noConfusion h)
     (fun _ h => Json.noConfusion h)⟩

/-- C10.  `simulate_ping` reseeds the process-wide generator with the fixed
seed 42 on entry, so its result list is independent of the ambient generator
state: any two calls on the same roster return field-for-field identical
records.  `ping_single`, in contrast, draws from the unseeded ambient
generator, and two different ambient states can change its outcome. -/
theorem simulate_ping_deterministic :
    (∀ (items : List RosterEntry) (g₁ g₂ : Rng),
        (simulate_ping items g₁).1 = (simulate_ping items g₂).1)
    ∧ ∃ g₁ g₂ : Rng,
        (ping_single "a" "agent" "m" g₁).1 ≠ (ping_single "a" "agent" "m" g₂).1 :=
  ⟨fun _ _ _ => rfl, ⟨⟨0⟩, ⟨2⟩, by decide⟩⟩

/-- A two-index `searchTiers` pass is the `Option.or` of the two single-tier
scans. -/
theorem searchTiers_pair (tiers : Tiers) (alive : String → Bool) (failed : String)
    (i j : Nat) :
    searchTiers tiers alive failed [i, j] =
      ((tiers.get (TIER_ORDER.getD i "light")).find? (fun m => alive m && m != failed)).or
        ((tiers.get (TIER_ORDER.getD j "light")).find? (fun m => alive m && m != failed)) := by
  cases h1 : (tiers.get (TIER_ORDER.getD i "light")).find? (fun m => alive m && m != failed) with
  | some m => simp only [searchTiers, h1, Option.or]
  | none =>
    cases h2 : (tiers.get (TIER_ORDER.getD j "light")).find? (fun m => alive m && m != failed) with
    | some m => simp only [searchTiers, h1, h2, Option.or]
    | none => simp only [searchTiers, h1, h2, Option.or]

/-- `_classify_tier` only ever returns one of the four `TIER_ORDER` names. -/
theorem classify_tier_mem (s : String) :
    _classify_tier s = "top" ∨ _classify_tier s = "high"
      ∨ _classify_tier s = "mid" ∨ _classify_tier s = "light" := by
  simp only [_classify_tier]
  split
  · exact Or.inl rfl
  · split
    · exact Or.inr (Or.inl rfl)
    · split
      · exact Or.inr (Or.inr (Or.inl rfl))
      · exact Or.inr (Or.inr (Or.inr rfl))

/-- C5.  `suggest_replacement` scans exactly the failed model's own tier and
then the next tier up (index − 1, clamped at the top tier), in tier-table
order, returning the first alive candidate different from the failed model;
it returns `none` exactly when those at most two tiers hold no such
candidate, with no lower-tier fallback.  Equivalently, it is the first match
over the concatenation of the two searched tier buckets. -/
theorem suggest_replacement_two_tier_search (roster : List (Option Json))
    (failed : String) (items : List StatusRecord) :
    suggest_replacement roster failed items =
      ((get_model_tiers roster).get (_classify_tier failed)
        ++ (get_model_tiers roster).get
            (TIER_ORDER.getD (listIndex TIER_ORDER (_classify_tier failed) - 1) "light")).find?
        (fun m => aliveB items m && m != failed) := by
  simp only [suggest_replacement, List.find?_append]
  rcases classify_tier_mem failed with h | h | h | h <;>
    rw [h] <;>
    simp only [listIndex, TIER_ORDER, if_pos, if_neg, reduceIte] <;>
    rw [searchTiers_pair] <;>
    rfl

/-- `replaceFirstById` is the identity when no item matches. -/
theorem replaceFirstById_not_found (agentId : String) (ns : StatusRecord) :
    ∀ items : List StatusRecord, (∀ it ∈ items, it.id ≠ agentId) →
      replaceFirstById agentId ns items = items := by
  intro items
  induction items with
  | nil => intro _; rfl
  | cons it rest ih =>
    intro h
    simp only [replaceFirstById]
    rw [if_neg (h it (by simp)), ih fun x hx => h x (by simp [hx])]

/-- `replaceFirstById` replaces exactly the first matching item. -/
theorem replaceFirstById_found (agentId : String) (ns : StatusRecord) :
    ∀ (l₁ : List StatusRecord) (it : StatusRecord) (l₂ : List StatusRecord),
      (∀ x ∈ l₁, x.id ≠ agentId) → it.id = agentId →
      replaceFirstById agentId ns (l₁ ++ it :: l₂) = l₁ ++ ns :: l₂ := by
  intro l₁
  induction l₁ with
  | nil => intro it l₂ _ hit; simp [replaceFirstById, hit]
  | cons x rest ih =>
    intro it l₂ h hit
    show (if x.id = agentId then ns :: (rest ++ it :: l₂)
      else x :: replaceFirstById agentId ns (rest ++ it :: l₂)) = (x :: rest) ++ ns :: l₂
    rw [if_neg (h x (by simp)), ih it l₂ (fun y hy => h y (by simp [hy])) hit,
      List.cons_append]

/-- A successful `splitOnceAux` decomposes the input at its first `':'`. -/
theorem splitOnceAux_eq :
    ∀ (cs l r : List Char), splitOnceAux cs = some (l, r) → cs = l ++ ':' :: r := by
  intro cs
  induction cs with
  | nil => intro l r h; simp [splitOnceAux] at h
  | cons c rest ih =>
    intro l r h
    simp only [splitOnceAux] at h
    by_cases hc : c = ':'
    · rw [if_pos hc] at h
      cases h
      simp [hc]
    · rw [if_neg hc] at h
      cases hlr : splitOnceAux rest with
      | none => rw [hlr] at h; cases h
      | some lr =>
        rw [hlr] at h
        cases h
        simp [ih lr.1 lr.2 (by rw [hlr])]

/-- A parsed `agent_id` reassembles to the original string:
`kind ++ ":" ++ name = agentId`. -/
theorem parseAgentId_recombine (agentId kind name : String)
    (h : parseAgentId agentId = some (kind, name)) :
    kind ++ ":" ++ name = agentId := by
  have h' : (match splitOnceAux agentId.data with
      | none => (none : Option (String × String))
      | some lr =>
        if String.mk lr.1 = "agent" ∨ String.mk lr.1 = "category"
        then some (String.mk lr.1, String.mk lr.2) else none) = some (kind, name) := h
  cases hs : splitOnceAux agentId.data with
  | none => rw [hs] at h'; cases h'
  | some lr =>
    rw [hs] at h'
    have h'' : (if String.mk lr.1 = "agent" ∨ String.mk lr.1 = "category"
        then some (String.mk lr.1, String.mk lr.2) else none) = some (kind, name) := h'
    by_cases hv : String.mk lr.1 = "agent" ∨ String.mk lr.1 = "category"
    · rw [if_pos hv] at h''
      injection h'' with h1
      injection h1 with hk hn
      subst hk
      subst hn
      have hd := splitOnceAux_eq agentId.data lr.1 lr.2 hs
      apply String.ext
      simpa [String.data_append] using hd.symm
    · rw [if_neg hv] at h''; cases h''

/-- C3.  For an accepted replacement request (`"<kind>:<name>"` plus a
non-empty new model), `api_replace_model` re-runs the Single-Target Prober
`ping_single` for exactly that one model — the patched-in record and the
advanced generator are exactly one `ping_single` call on `new_model` — and
in the snapshot it stamps `generated_at`, keeps `schema_version`, replaces
only the first item whose `id` equals the request id and leaves every other
item unchanged (if no item matches, the items are untouched). -/
theorem api_replace_model_frame (snapshot : StatusSnapshot)
    (now agentId new_model : String) (g : Rng) (kind name : String)
    (hparse : parseAgentId agentId = some (kind, name)) (hnm : new_model ≠ "") :
    ∃ snap' g', api_replace_model snapshot now agentId new_model g = some (snap', g')
      ∧ snap'.schema_version = snapshot.schema_version
      ∧ snap'.generated_at = now
      ∧ g' = (ping_single name kind new_model g).2
      ∧ (ping_single name kind new_model g).1.id = agentId
      ∧ (ping_single name kind new_model g).1.model = some new_model
      ∧ ((∀ it ∈ snapshot.items, it.id ≠ agentId) → snap'.items = snapshot.items)
      ∧ (∀ (l₁ : List StatusRecord) (it : StatusRecord) (l₂ : List StatusRecord),
          snapshot.items = l₁ ++ it :: l₂ →
          (∀ x ∈ l₁, x.id ≠ agentId) → it.id = agentId →
          snap'.items = l₁ ++ (ping_single name kind new_model g).1 :: l₂) := by
  have hid : agentId ≠ "" := by
    intro h
    rw [h] at hparse
    simp [parseAgentId, splitOnceAux, String.toList] at hparse
  refine ⟨{ generated_at := now, schema_version := snapshot.schema_version,
            items := replaceFirstById agentId (ping_single name kind new_model g).1
              snapshot.items },
          (ping_single name kind new_model g).2, ?_, rfl, rfl, rfl, ?_, rfl, ?_, ?_⟩
  · simp only [api_replace_model, hparse]
    rw [if_neg (by simp [hid, hnm])]
  · simpa [ping_single] using parseAgentId_recombine agentId kind name hparse
  · intro h
    exact replaceFirstById_not_found agentId _ snapshot.items h
  · intro l₁ it l₂ hsplit h1 hit
    show replaceFirstById agentId (ping_single name kind new_model g).1 snapshot.items = _
    rw [hsplit]
    exact replaceFirstById_found agentId _ l₁ it l₂ h1 hit

/-- Witness for C3: on a two-item snapshot, replacing `"agent:b"`'s model
with `"m9"` patches exactly the second item with the `ping_single` result and
leaves the first item and the schema version alone. -/
theorem api_replace_model_frame_witness :
    ∃ snap' g', api_replace_model
        ⟨"t0", 1, [⟨"agent:a", "a", "agent", some "m0", "ALIVE", "OK", 200, none, none, 1⟩,
                   ⟨"agent:b", "b", "agent", some "m1", "ALIVE", "OK", 200, none, none, 2⟩]⟩
        "t1" "agent:b" "m9" ⟨0⟩ = some (snap', g')
      ∧ snap'.schema_version = 1
      ∧ snap'.generated_at = "t1"
      ∧ snap'.items = [⟨"agent:a", "a", "agent", some "m0", "ALIVE", "OK", 200, none, none, 1⟩,
          (ping_single "b" "agent" "m9" ⟨0⟩).1] := by
  obtain ⟨snap', g', heq, hsch, hgen, _, _, _, _, hfound⟩ :=
    api_replace_model_frame
      ⟨"t0", 1, [⟨"agent:a", "a", "agent", some "m0", "ALIVE", "OK", 200, none, none, 1⟩,
                 ⟨"agent:b", "b", "agent", some "m1", "ALIVE", "OK", 200, none, none, 2⟩]⟩
      "t1" "agent:b" "m9" ⟨0⟩ "agent" "b" rfl (by decide)
  refine ⟨snap', g', heq, hsch, hgen, ?_⟩
  simpa using hfound
    [⟨"agent:a", "a", "agent", some "m0", "ALIVE", "OK", 200, none, none, 1⟩]
    ⟨"agent:b", "b", "agent", some "m1", "ALIVE", "OK", 200, none, none, 2⟩ []
    rfl (by decide) rfl

/-- A skipped line leaves the scan result of the remaining lines unchanged. -/
theorem scanLines_skip (p : StdoutLine) (rest : List StdoutLine)
    (h : lineSkipped p = true) : scanLines (p :: rest) = scanLines rest := by
  cases p with
  | none => rfl
  | some payload =>
    simp only [scanLines]
    split
    · rename_i heq
      simp [lineSkipped, heq] at h
    · rename_i heq
      simp [lineSkipped, heq] at h
    · rfl

/-- After any run of skipped lines, the first `"error"` event determines the
scan result; lines after it are never consulted. -/
theorem scanLines_error_found (pre : List StdoutLine)
    (payload : List (String × Json)) (suf : List StdoutLine)
    (hpre : ∀ p ∈ pre, lineSkipped p = true)
    (htype : dictGet payload "type" = some (Json.str "error")) :
    scanLines (pre ++ some payload :: suf)
      = ScanOutcome.errorEvent (extractErrorMessage payload) := by
  induction pre with
  | nil => simp [scanLines, htype]
  | cons p rest ih =>
    rw [List.cons_append, scanLines_skip p _ (hpre p (by simp))]
    exact ih fun x hx => hpre x (by simp [hx])

/-- C8.  When the stdout scan reaches a structured `"error"` event (after
any lines it skips), it stops there: the result is that event's extracted
message, whatever lines follow.  The extraction takes `error.data.message`
when `error.data` is a dict, and falls back to `error.message` when
`error.data` is not a dict. -/
theorem scan_first_error_event_wins (pre : List StdoutLine)
    (payload : List (String × Json)) (suf : List StdoutLine)
    (hpre : ∀ p ∈ pre, lineSkipped p = true)
    (htype : dictGet payload "type" = some (Json.str "error")) :
    scanLines (pre ++ some payload :: suf)
      = ScanOutcome.errorEvent (extractErrorMessage payload)
    ∧ (∀ errFields dataFields s,
        dictGet payload "error" = some (Json.obj errFields) →
        dictGet errFields "data" = some (Json.obj dataFields) →
        dictGet dataFields "message" = some (Json.str s) →
        extractErrorMessage payload = some s)
    ∧ (∀ errFields s,
        dictGet payload "error" = some (Json.obj errFields) →
        (∀ fs, dictGet errFields "data" ≠ some (Json.obj fs)) →
        dictGet errFields "message" = some (Json.str s) →
        extractErrorMessage payload = some s) := by
  refine ⟨scanLines_error_found pre payload suf hpre htype, ?_, ?_⟩
  · intro errFields dataFields s herr hdata hmsg
    simp [extractErrorMessage, herr, hdata, hmsg]
  · intro errFields s herr hnd hmsg
    cases hd : dictGet errFields "data" with
    | none => simp [extractErrorMessage, herr, hd, hmsg]
    | some j =>
      cases j with
      | obj fs => exact absurd hd (hnd fs)
      | null => simp [extractErrorMessage, herr, hd, hmsg]
      | bool b => simp [extractErrorMessage, herr, hd, hmsg]
      | num n => simp [extractErrorMessage, herr, hd, hmsg]
      | str s2 => simp [extractErrorMessage, herr, hd, hmsg]
      | arr xs => simp [extractErrorMessage, herr, hd, hmsg]

/-- Witness for C8: a blank line, then an error event carrying
`error.data.message = "boom"`, then a text event; the scan reports "boom"
and never reaches the text event. -/
theorem scan_first_error_event_wins_witness :
    scanLines [none,
      some [("type", Json.str "error"),
            ("error", Json.obj [("data", Json.obj [("message", Json.str "boom")])])],
      some [("type", Json.str "text")]]
      = ScanOutcome.errorEvent (some "boom") :=
  (scan_first_error_event_wins [none]
    [("type", Json.str "error"),
     ("error", Json.obj [("data", Json.obj [("message", Json.str "boom")])])]
    [some [("type", Json.str "text")]]
    (by intro p hp; simp at hp; rw [hp]; rfl) rfl).1

/-- Pointwise facts about a map lift to `Forall₂` against the mapped list. -/
theorem forall₂_map_self {α β : Type} (P : α → β → Prop) (f : α → β) :
    ∀ l : List α, (∀ x ∈ l, P x (f x)) → List.Forall₂ P l (l.map f) := by
  intro l
  induction l with
  | nil => intro _; constructor
  | cons a t ih =>
    intro h
    exact List.Forall₂.cons (h a (by simp)) (ih fun x hx => h x (by simp [hx]))

/-- Every entry/record pair of `simulate_ping_go` satisfies the
invalid-config invariant. -/
theorem simulate_ping_go_invalid :
    ∀ (items : List RosterEntry) (g : Rng),
      List.Forall₂ (fun it r => truthyModel it.model = none → invalidFields r)
        items (simulate_ping_go items g).1 := by
  intro items
  induction items with
  | nil => intro g; constructor
  | cons it rest ih =>
    intro g
    cases hm : truthyModel it.model with
    | none =>
      simp only [simulate_ping_go, hm]
      exact List.Forall₂.cons (fun _ => ⟨rfl, rfl, rfl, rfl, rfl, rfl⟩) (ih g)
    | some m =>
      simp only [simulate_ping_go, hm]
      refine List.Forall₂.cons (fun hc => ?_) (ih _)
      rw [hc] at hm
      cases hm

/-- C7.  A roster entry whose model is absent or empty yields a record with
status `INVALID_CONFIG`, severity `ERROR`, code 0, error message
`"Missing model"` and latency 0, in both the simulated and the real
orchestration paths; the record is fixed independently of the generator
state and of the probe function, i.e. no probe is consulted for it. -/
theorem invalid_config_bypasses_probing :
    (∀ (items : List RosterEntry) (g : Rng),
      List.Forall₂ (fun it r => truthyModel it.model = none → invalidFields r)
        items (simulate_ping items g).1)
    ∧ (∀ (items : List RosterEntry) (probe : String → Except Unit ProbeOutcome)
        (records : List StatusRecord),
        real_ping items probe = Except.ok records →
        List.Forall₂ (fun it r => truthyModel it.model = none → invalidFields r)
          items records) := by
  constructor
  · intro items g
    exact simulate_ping_go_invalid items (seedRng 42)
  · intro items probe records h
    cases htbl : gatherProbesAux (fun _ => none) (distinctModels items) probe with
    | error e => rw [real_ping, htbl] at h; cases h
    | ok tbl =>
      rw [real_ping, htbl] at h
      cases h
      refine forall₂_map_self _ _ items fun it _ hc => ?_
      simp only [record_for, hc, invalidRecord]
      exact ⟨rfl, rfl, rfl, rfl, rfl, rfl⟩

/-- Witness for C7: a one-entry roster with `model = none` produces the fixed
invalid record in the simulated path, and in the real path under a total
probe stub. -/
theorem invalid_config_bypasses_probing_witness :
    List.Forall₂ (fun it r => truthyModel it.model = none → invalidFields r)
      [(⟨some "a", some "agent", none⟩ : RosterEntry)]
      (simulate_ping [⟨some "a", some "agent", none⟩] ⟨0⟩).1
    ∧ List.Forall₂ (fun it r => truthyModel it.model = none → invalidFields r)
      [(⟨some "a", some "agent", none⟩ : RosterEntry)]
      [invalidRecord "agent:a" "a" "agent" none] :=
  ⟨invalid_config_bypasses_probing.1 [⟨some "a", some "agent", none⟩] ⟨0⟩,
   invalid_config_bypasses_probing.2 [⟨some "a", some "agent", none⟩]
     (fun _ => Except.ok ⟨200, "ALIVE", "OK", none, none, 7⟩)
     [invalidRecord "agent:a" "a" "agent" none] rfl⟩

/-- `distinctModelsAux` preserves freedom from duplicates. -/
theorem distinctModelsAux_nodup :
    ∀ (items : List RosterEntry) (acc : List String), acc.Nodup →
      (distinctModelsAux acc items).Nodup := by
  intro items
  induction items with
  | nil => intro acc h; exact h
  | cons it rest ih =>
    intro acc h
    cases hm : truthyModel it.model with
    | none => simp only [distinctModelsAux, hm]; exact ih acc h
    | some m =>
      simp only [distinctModelsAux, hm]
      by_cases hmem : m ∈ acc
      · rw [if_pos hmem]; exact ih acc h
      · rw [if_neg hmem]
        exact ih _ (by simp [List.nodup_append, List.disjoint_singleton, h, hmem])

/-- Membership in `distinctModelsAux`: either already accumulated or the
truthy model of some processed entry. -/
theorem distinctModelsAux_mem :
    ∀ (items : List RosterEntry) (acc : List String) (m : String),
      m ∈ distinctModelsAux acc items ↔
        m ∈ acc ∨ ∃ it ∈ items, truthyModel it.model = some m := by
  intro items
  induction items with
  | nil => intro acc m; simp [distinctModelsAux]
  | cons it rest ih =>
    intro acc m
    cases hm : truthyModel it.model with
    | none =>
      simp only [distinctModelsAux, hm]
      rw [ih]
      constructor
      · rintro (h | ⟨x, hx, hxm⟩)
        · exact Or.inl h
        · exact Or.inr ⟨x, List.mem_cons_of_mem it hx, hxm⟩
      · rintro (h | ⟨x, hx, hxm⟩)
        · exact Or.inl h
        · rcases List.mem_cons.mp hx with rfl | hx'
          · rw [hm] at hxm; cases hxm
          · exact Or.inr ⟨x, hx', hxm⟩
    | some m' =>
      simp only [distinctModelsAux, hm]
      by_cases hmem : m' ∈ acc
      · rw [if_pos hmem, ih]
        constructor
        · rintro (h | ⟨x, hx, hxm⟩)
          · exact Or.inl h
          · exact Or.inr ⟨x, List.mem_cons_of_mem it hx, hxm⟩
        · rintro (h | ⟨x, hx, hxm⟩)
          · exact Or.inl h
          · rcases List.mem_cons.mp hx with rfl | hx'
            · rw [hm] at hxm
              exact Or.inl (Option.some.inj hxm ▸ hmem)
            · exact Or.inr ⟨x, hx', hxm⟩
      · rw [if_neg hmem, ih]
        constructor
        · rintro (h | ⟨x, hx, hxm⟩)
          · rcases List.mem_append.mp h with h' | h'
            · exact Or.inl h'
            · rcases List.mem_singleton.mp h' with rfl
              exact Or.inr ⟨it, List.mem_cons_self it rest, hm⟩
          · exact Or.inr ⟨x, List.mem_cons_of_mem it hx, hxm⟩
        · rintro (h | ⟨x, hx, hxm⟩)
          · exact Or.inl (List.mem_append.mpr (Or.inl h))
          · rcases List.mem_cons.mp hx with rfl | hx'
            · rw [hm] at hxm
              exact Or.inl (List.mem_append.mpr (Or.inr
                (by simp [Option.some.inj hxm])))
            · exact Or.inr ⟨x, hx', hxm⟩

/-- When every submitted probe succeeds, the collection loop succeeds and
the resulting mapping holds exactly each model's probe result. -/
theorem gatherProbesAux_total :
    ∀ (models : List String) (acc : String → Option ProbeOutcome)
      (probe : String → Except Unit ProbeOutcome),
      (∀ m ∈ models, (probe m).isOk = true) →
      ∃ tbl, gatherProbesAux acc models probe = Except.ok tbl
        ∧ (∀ m, m ∉ models → tbl m = acc m)
        ∧ (∀ m ∈ models, ∃ o, probe m = Except.ok o ∧ tbl m = some o) := by
  intro models
  induction models with
  | nil =>
    intro acc probe _
    exact ⟨acc, rfl, fun _ _ => rfl, by simp⟩
  | cons m₀ rest ih =>
    intro acc probe h
    have h₀ := h m₀ (by simp)
    cases ho : probe m₀ with
    | error e => rw [ho] at h₀; simp [Except.isOk, Except.toBool] at h₀
    | ok o =>
      obtain ⟨tbl, htbl, hout, hin⟩ := ih (fun k => if k = m₀ then some o else acc k)
        probe (fun x hx => h x (by simp [hx]))
      refine ⟨tbl, ?_, ?_, ?_⟩
      · simp only [gatherProbesAux, ho]; exact htbl
      · intro m hm
        have hm1 : m ∉ rest := fun hc => hm (by simp [hc])
        have hm2 : m ≠ m₀ := fun hc => hm (by simp [hc])
        rw [hout m hm1]
        simp [hm2]
      · intro m hm
        rcases List.mem_cons.mp hm with rfl | hmr
        · by_cases hr : m ∈ rest
          · exact hin m hr
          · exact ⟨o, ho, by rw [hout m hr]; simp⟩
        · exact hin m hmr

/-- The outcome fields of a projected record depend only on the entry's
model. -/
theorem record_for_outcome (tbl : String → Option ProbeOutcome) (it : RosterEntry) :
    outcomeOf (record_for tbl it) =
      match truthyModel it.model with
      | none => outcomeOf (invalidRecord "" "" "" none)
      | some m => (tbl m).getD probeFailedOutcome := by
  cases hm : truthyModel it.model <;>
    simp [record_for, outcomeOf, hm, invalidRecord]

/-- Indexing through `List.map`. -/
theorem get_map_at {α β : Type} (f : α → β) (l : List α) (i : Nat)
    (h1 : i < l.length) (h2 : i < (l.map f).length) :
    (l.map f).get ⟨i, h2⟩ = f (l.get ⟨i, h1⟩) := by
  simp

/-- The identification fields of a projected record are those of its own
entry, in both branches of the projection. -/
theorem record_for_fields (tbl : String → Option ProbeOutcome) (it : RosterEntry) :
    (record_for tbl it).id = orUnknown it.type ++ ":" ++ orUnknown it.name
    ∧ (record_for tbl it).name = orUnknown it.name
    ∧ (record_for tbl it).type = orUnknown it.type
    ∧ (record_for tbl it).model = it.model := by
  cases hm : truthyModel it.model <;> simp [record_for, hm, invalidRecord]

/-- C2.  On a batch where every distinct model's probe task succeeds,
`real_ping` submits each distinct non-empty model exactly once (the submitted
list has no duplicates and covers exactly the truthy models of the input) and
returns exactly one record per input entry, in input order: record `i`
carries entry `i`'s id/name/kind/model, its outcome fields are the probe
result of entry `i`'s model, and any two entries with equal model fields get
field-for-field identical outcome fields. -/
theorem real_ping_dedup_order (items : List RosterEntry)
    (probe : String → Except Unit ProbeOutcome)
    (h : ∀ m ∈ distinctModels items, (probe m).isOk = true) :
    (distinctModels items).Nodup
    ∧ (∀ m, m ∈ distinctModels items ↔ ∃ it ∈ items, truthyModel it.model = some m)
    ∧ ∃ records, real_ping items probe = Except.ok records
        ∧ records.length = items.length
        ∧ (∀ i (hi : i < items.length) (hr : i < records.length),
            (records.get ⟨i, hr⟩).id =
              orUnknown (items.get ⟨i, hi⟩).type ++ ":" ++ orUnknown (items.get ⟨i, hi⟩).name
            ∧ (records.get ⟨i, hr⟩).name = orUnknown (items.get ⟨i, hi⟩).name
            ∧ (records.get ⟨i, hr⟩).type = orUnknown (items.get ⟨i, hi⟩).type
            ∧ (records.get ⟨i, hr⟩).model = (items.get ⟨i, hi⟩).model
            ∧ (∀ m, truthyModel (items.get ⟨i, hi⟩).model = some m →
                ∃ o, probe m = Except.ok o ∧ outcomeOf (records.get ⟨i, hr⟩) = o))
        ∧ (∀ i j (hi : i < records.length) (hj : j < records.length)
            (hi' : i < items.length) (hj' : j < items.length),
            (items.get ⟨i, hi'⟩).model = (items.get ⟨j, hj'⟩).model →
            outcomeOf (records.get ⟨i, hi⟩) = outcomeOf (records.get ⟨j, hj⟩)) := by
  obtain ⟨tbl, htbl, _, hin⟩ :=
    gatherProbesAux_total (distinctModels items) (fun _ => none) probe h
  refine ⟨distinctModelsAux_nodup items [] List.nodup_nil,
    fun m => by simpa using distinctModelsAux_mem items [] m,
    items.map (record_for tbl), ?_, by simp, ?_, ?_⟩
  · simp only [real_ping, htbl]
  · intro i hi hr
    rw [get_map_at (record_for tbl) items i hi]
    obtain ⟨f1, f2, f3, f4⟩ := record_for_fields tbl (items.get ⟨i, hi⟩)
    refine ⟨f1, f2, f3, f4, ?_⟩
    intro m hm
    have hmem : m ∈ distinctModels items :=
      (distinctModelsAux_mem items [] m).mpr
        (Or.inr ⟨items.get ⟨i, hi⟩, List.get_mem items i hi, hm⟩)
    obtain ⟨o, hpo, htblm⟩ := hin m hmem
    refine ⟨o, hpo, ?_⟩
    rw [record_for_outcome, hm]
    simp [htblm]
  · intro i j hi hj hi' hj' hmodel
    rw [get_map_at (record_for tbl) items i hi', get_map_at (record_for tbl) items j hj',
      record_for_outcome, record_for_outcome, hmodel]

/-- Witness for C2: three entries, two sharing model `"m1"` and one with an
empty model, under a total probe stub: the submitted models are exactly
`["m1"]` without duplicates, and three records come back. -/
theorem real_ping_dedup_order_witness :
    (distinctModels
        [⟨some "a1", some "agent", some "m1"⟩, ⟨some "c1", some "category", some "m1"⟩,
         ⟨some "x", some "agent", some ""⟩]).Nodup
    ∧ ∃ records, real_ping
        [⟨some "a1", some "agent", some "m1"⟩, ⟨some "c1", some "category", some "m1"⟩,
         ⟨some "x", some "agent", some ""⟩]
        (fun _ => Except.ok ⟨200, "ALIVE", "OK", none, none, 7⟩) = Except.ok records
      ∧ records.length = 3 := by
  obtain ⟨hnd, _, records, heq, hlen, _, _⟩ :=
    real_ping_dedup_order
      [⟨some "a1", some "agent", some "m1"⟩, ⟨some "c1", some "category", some "m1"⟩,
       ⟨some "x", some "agent", some ""⟩]
      (fun _ => Except.ok ⟨200, "ALIVE", "OK", none, none, 7⟩) (by decide)
  exact ⟨hnd, records, heq, by rw [hlen]; rfl⟩

end Graveyard
